import Mathlib

/-!
Verification development for the `threatkb.py` API client
(InQuest/python-threatkb).  The Python source is shallowly embedded:

* Python `dict`s whose keys are strings become association lists
  (`Dict α`) kept in insertion order with unique keys, written through
  `dictSet` (assignment `d[k] = v`) and read through `dictLookup`
  (`d[k]`, `none` = `KeyError`/`TypeError`).
* JSON values (`json.loads` results / `json.dumps` inputs) become the
  inductive `Json`; Python scalars that appear in the program (strings,
  ints, `None`) are carried as the corresponding `Json` constructors.
  JSON numbers are kept as their literal text, which the program never
  does arithmetic on.
* The `requests` session is an abstract total function
  `Server : Request → Response`; every modeled operation also returns
  the list of requests it issued, so "issues no network call" is the
  trace being empty.
* Fallible Python code returns `Except String α` (the string is the
  exception class/message) or `Option`.
-/

/-- Python string-keyed `dict`: association list in insertion order. -/
abbrev Dict (α : Type) := List (String × α)

/-- Python dict assignment `d[k] = v`: replace the value in place if the
key exists (a real dict has at most one occurrence), else append. -/
def dictSet {α : Type} : Dict α → String → α → Dict α
  | [], k, v => [(k, v)]
  | (k', v') :: d, k, v =>
    if k' = k then (k, v) :: dictSet d k v else (k', v') :: dictSet d k v

/-- Python dict read `d[k]` (`none` models `KeyError`). -/
def dictLookup {α : Type} : Dict α → String → Option α
  | [], _ => none
  | (k', v) :: d, k => if k' = k then some v else dictLookup d k

theorem dictLookup_dictSet_self {α : Type} (d : Dict α) (k : String) (v : α) :
    dictLookup (dictSet d k v) k = some v := by
  induction d with
  | nil => simp [dictSet, dictLookup]
  | cons p d ih =>
    rcases p with ⟨k2, v2⟩
    by_cases h : k2 = k
    · simp [dictSet, dictLookup, h]
    · simp [dictSet, dictLookup, h, ih]

theorem dictLookup_dictSet_ne {α : Type} (d : Dict α) (k k' : String) (v : α)
    (h : k' ≠ k) : dictLookup (dictSet d k v) k' = dictLookup d k' := by
  induction d with
  | nil => simp [dictSet, dictLookup, Ne.symm h]
  | cons p d ih =>
    rcases p with ⟨k2, v2⟩
    by_cases hk : k2 = k
    · subst hk
      simp [dictSet, dictLookup, Ne.symm h, ih]
    · by_cases hk' : k2 = k'
      · simp [dictSet, dictLookup, hk, hk', h]
      · simp [dictSet, dictLookup, hk, hk', ih]

/-- Inserting a fresh key is appending: with no duplicate keys, building a
dict from a list of bindings keeps them verbatim. -/
theorem dictSet_fresh {α : Type} (d : Dict α) (k : String) (v : α)
    (h : dictLookup d k = none) : dictSet d k v = d ++ [(k, v)] := by
  induction d with
  | nil => simp [dictSet]
  | cons p d ih =>
    rcases p with ⟨k2, v2⟩
    by_cases hk : k2 = k
    · simp [dictLookup, hk] at h
    · simp [dictLookup, hk] at h
      simp [dictSet, hk, ih h]

/-- JSON / Python value tree.  Numbers keep their literal spelling. -/
inductive Json where
  | null : Json
  | bool : Bool → Json
  | num : String → Json
  | str : String → Json
  | arr : List Json → Json
  | obj : List (String × Json) → Json

/-- Hexadecimal digit (lowercase), as emitted by `json.dumps` escapes. -/
def hexDigit (n : Nat) : Char :=
  if n < 10 then Char.ofNat (48 + n) else Char.ofNat (87 + n)

/-- Four-digit lowercase hex, for `\uXXXX` escapes. -/
def hex4 (n : Nat) : String :=
  String.mk [hexDigit (n / 4096 % 16), hexDigit (n / 256 % 16),
             hexDigit (n / 16 % 16), hexDigit (n % 16)]

/-- `json.dumps` escaping of one character (default `ensure_ascii=True`:
everything outside printable ASCII becomes `\uXXXX`, astral code points a
surrogate pair). -/
def escapeChar (c : Char) : String :=
  if c = '"' then "\\\""
  else if c = '\\' then "\\\\"
  else if c = '\n' then "\\n"
  else if c = '\r' then "\\r"
  else if c = '\t' then "\\t"
  else if c = Char.ofNat 8 then "\\b"
  else if c = Char.ofNat 12 then "\\f"
  else if c.toNat < 32 then "\\u" ++ hex4 c.toNat
  else if c.toNat < 127 then String.singleton c
  else if c.toNat < 65536 then "\\u" ++ hex4 c.toNat
  else "\\u" ++ hex4 (55296 + (c.toNat - 65536) / 1024) ++
       "\\u" ++ hex4 (56320 + (c.toNat - 65536) % 1024)

def escapeString (s : String) : String := String.join (s.data.map escapeChar)

def quoteString (s : String) : String := "\"" ++ escapeString s ++ "\""

mutual

/-- `json.dumps` with its default separators `", "` and `": "`. -/
def jsonDumps : Json → String
  | .null => "null"
  | .bool true => "true"
  | .bool false => "false"
  | .num lit => lit
  | .str s => quoteString s
  | .arr xs => "[" ++ dumpsArr xs ++ "]"
  | .obj fs => "\x7b" ++ dumpsObj fs ++ "\x7d"

def dumpsArr : List Json → String
  | [] => ""
  | [x] => jsonDumps x
  | x :: y :: xs => jsonDumps x ++ ", " ++ dumpsArr (y :: xs)

def dumpsObj : List (String × Json) → String
  | [] => ""
  | [(k, v)] => quoteString k ++ ": " ++ jsonDumps v
  | (k, v) :: p :: fs => quoteString k ++ ": " ++ jsonDumps v ++ ", " ++ dumpsObj (p :: fs)

end

example : jsonDumps (.obj [("comment", .str "test comment"), ("entity_type", .num "1"),
    ("entity_id", .str "42")]) =
    "\x7b\"comment\": \"test comment\", \"entity_type\": 1, \"entity_id\": \"42\"\x7d" := by
  rfl

/-! ### `json.loads`

A fuel-indexed recursive-descent parser mirroring Python's `json.loads`
on `str` input: JSON whitespace, the standard value grammar, the
non-standard constants `NaN`/`Infinity`/`-Infinity` that Python accepts
by default, strict rejection of raw control characters in strings, and
last-one-wins duplicate object keys.  Numbers are validated against the
JSON grammar and kept as literals.  (Lone `\uXXXX` surrogates, which
Python would keep as unpaired surrogate code units, fall back to
`Char.ofNat`; no claim depends on them.) -/

def skipWs : List Char → List Char
  | [] => []
  | c :: cs => if c = ' ' || c = '\t' || c = '\n' || c = '\r' then skipWs cs else c :: cs

def hexVal (c : Char) : Option Nat :=
  if '0' ≤ c ∧ c ≤ '9' then some (c.toNat - 48)
  else if 'a' ≤ c ∧ c ≤ 'f' then some (c.toNat - 87)
  else if 'A' ≤ c ∧ c ≤ 'F' then some (c.toNat - 55)
  else none

def isDigit (c : Char) : Bool := '0' ≤ c && c ≤ '9'

/-- Body of a JSON string after the opening quote; `acc` is reversed. -/
def parseStringRest : Nat → List Char → List Char → Option (String × List Char)
  | 0, _, _ => none
  | _ + 1, [], _ => none
  | fuel + 1, c :: cs, acc =>
    if c = '"' then some (String.mk acc.reverse, cs)
    else if c = '\\' then
      match cs with
      | [] => none
      | e :: cs2 =>
        if e = '"' then parseStringRest fuel cs2 ('"' :: acc)
        else if e = '\\' then parseStringRest fuel cs2 ('\\' :: acc)
        else if e = '/' then parseStringRest fuel cs2 ('/' :: acc)
        else if e = 'b' then parseStringRest fuel cs2 (Char.ofNat 8 :: acc)
        else if e = 'f' then parseStringRest fuel cs2 (Char.ofNat 12 :: acc)
        else if e = 'n' then parseStringRest fuel cs2 ('\n' :: acc)
        else if e = 'r' then parseStringRest fuel cs2 ('\r' :: acc)
        else if e = 't' then parseStringRest fuel cs2 ('\t' :: acc)
        else if e = 'u' then
          match cs2 with
          | h1 :: h2 :: h3 :: h4 :: cs3 =>
            match hexVal h1, hexVal h2, hexVal h3, hexVal h4 with
            | some a, some b, some c3, some d =>
              let n := a * 4096 + b * 256 + c3 * 16 + d
              if 55296 ≤ n ∧ n ≤ 56319 then
                match cs3 with
                | '\\' :: 'u' :: g1 :: g2 :: g3 :: g4 :: cs4 =>
                  match hexVal g1, hexVal g2, hexVal g3, hexVal g4 with
                  | some a2, some b2, some c2, some d2 =>
                    let m := a2 * 4096 + b2 * 256 + c2 * 16 + d2
                    if 56320 ≤ m ∧ m ≤ 57343 then
                      parseStringRest fuel cs4
                        (Char.ofNat (65536 + (n - 55296) * 1024 + (m - 56320)) :: acc)
                    else parseStringRest fuel cs3 (Char.ofNat n :: acc)
                  | _, _, _, _ => parseStringRest fuel cs3 (Char.ofNat n :: acc)
                | _ => parseStringRest fuel cs3 (Char.ofNat n :: acc)
              else parseStringRest fuel cs3 (Char.ofNat n :: acc)
            | _, _, _, _ => none
          | _ => none
        else none
    else if c.toNat < 32 then none
    else parseStringRest fuel cs (c :: acc)

def takeDigits : List Char → List Char × List Char
  | [] => ([], [])
  | c :: cs =>
    if isDigit c then
      let p := takeDigits cs
      (c :: p.1, p.2)
    else ([], c :: cs)

/-- JSON number grammar `-?(0|[1-9][0-9]*)(\.[0-9]+)?([eE][+-]?[0-9]+)?`,
returned as its literal text. -/
def parseNumber (cs : List Char) : Option (String × List Char) :=
  let sp := match cs with
    | '-' :: r => (['-'], r)
    | _ => (([] : List Char), cs)
  match takeDigits sp.2 with
  | ([], _) => none
  | (ints, cs2) =>
    if ints.length > 1 ∧ ints.headD '0' = '0' then none
    else
      let fr : Option (List Char × List Char) :=
        match cs2 with
        | '.' :: r =>
          match takeDigits r with
          | ([], _) => none
          | (ds, r2) => some ('.' :: ds, r2)
        | _ => some ([], cs2)
      match fr with
      | none => none
      | some (frac, cs3) =>
        let ex : Option (List Char × List Char) :=
          match cs3 with
          | e :: r =>
            if e = 'e' ∨ e = 'E' then
              let sp2 := match r with
                | '+' :: r2 => (['+'], r2)
                | '-' :: r2 => (['-'], r2)
                | _ => (([] : List Char), r)
              match takeDigits sp2.2 with
              | ([], _) => none
              | (ds, r3) => some (e :: (sp2.1 ++ ds), r3)
            else some ([], cs3)
          | [] => some ([], [])
        match ex with
        | none => none
        | some (expo, cs4) => some (String.mk (sp.1 ++ ints ++ frac ++ expo), cs4)

mutual

/-- One JSON value (leading whitespace allowed, trailing left in place). -/
def parseVal : Nat → List Char → Option (Json × List Char)
  | 0, _ => none
  | fuel + 1, cs =>
    match skipWs cs with
    | [] => none
    | c :: rest =>
      if c = '\x7b' then parseObjBody fuel rest []
      else if c = '[' then parseArrBody fuel rest []
      else if c = '"' then
        match parseStringRest (rest.length + 1) rest [] with
        | some (s, r) => some (.str s, r)
        | none => none
      else if c = 't' then
        match rest with
        | 'r' :: 'u' :: 'e' :: r => some (.bool true, r)
        | _ => none
      else if c = 'f' then
        match rest with
        | 'a' :: 'l' :: 's' :: 'e' :: r => some (.bool false, r)
        | _ => none
      else if c = 'n' then
        match rest with
        | 'u' :: 'l' :: 'l' :: r => some (.null, r)
        | _ => none
      else if c = 'N' then
        match rest with
        | 'a' :: 'N' :: r => some (.num "NaN", r)
        | _ => none
      else if c = 'I' then
        match rest with
        | 'n' :: 'f' :: 'i' :: 'n' :: 'i' :: 't' :: 'y' :: r => some (.num "Infinity", r)
        | _ => none
      else if c = '-' then
        match rest with
        | 'I' :: 'n' :: 'f' :: 'i' :: 'n' :: 'i' :: 't' :: 'y' :: r =>
          some (.num "-Infinity", r)
        | _ =>
          match parseNumber (c :: rest) with
          | some (lit, r) => some (.num lit, r)
          | none => none
      else
        match parseNumber (c :: rest) with
        | some (lit, r) => some (.num lit, r)
        | none => none

/-- Array elements after `[` (or after a comma); `acc` holds the parsed
prefix in order. -/
def parseArrBody : Nat → List Char → List Json → Option (Json × List Char)
  | 0, _, _ => none
  | fuel + 1, cs, acc =>
    match acc, skipWs cs with
    | [], ']' :: r => some (.arr [], r)
    | _, cs2 =>
      match parseVal fuel cs2 with
      | none => none
      | some (v, r) =>
        match skipWs r with
        | ',' :: r2 => parseArrBody fuel r2 (acc ++ [v])
        | ']' :: r2 => some (.arr (acc ++ [v]), r2)
        | _ => none

/-- Object members after the opening brace (or after a comma); duplicate
keys overwrite in place, as `dict` assignment does. -/
def parseObjBody : Nat → List Char → List (String × Json) → Option (Json × List Char)
  | 0, _, _ => none
  | fuel + 1, cs, acc =>
    match acc, skipWs cs with
    | [], '\x7d' :: r => some (.obj [], r)
    | _, cs2 =>
      match cs2 with
      | '"' :: r0 =>
        match parseStringRest (r0.length + 1) r0 [] with
        | none => none
        | some (k, r1) =>
          match skipWs r1 with
          | ':' :: r2 =>
            match parseVal fuel r2 with
            | none => none
            | some (v, r3) =>
              match skipWs r3 with
              | ',' :: r4 => parseObjBody fuel r4 (dictSet acc k v)
              | '\x7d' :: r4 => some (.obj (dictSet acc k v), r4)
              | _ => none
          | _ => none
      | _ => none

end

/-- `json.loads` on a string: one value, only whitespace may follow. -/
def jsonLoads (s : String) : Option Json :=
  match parseVal (s.length + 1) s.data with
  | some (v, rest) => if skipWs rest = [] then some v else none
  | none => none

example : jsonLoads "\x7b\"total_count\": 1, \"data\": [\x7b\"id\": 7\x7d]\x7d" =
    some (.obj [("total_count", .num "1"), ("data", .arr [.obj [("id", .num "7")]])]) := by
  rfl

example : jsonLoads "[1, -2.5e3, \"a b\", true, null]" =
    some (.arr [.num "1", .num "-2.5e3", .str "a b", .bool true, .null]) := by rfl

example : jsonLoads "not json" = none := by rfl

example : jsonLoads "\"\\u0041\\n\"" = some (.str "A\n") := by rfl

/-! ### Python value semantics used by the program -/

/-- Truthiness of a JSON number literal: zero iff its mantissa digits are
all `0` (covers `0`, `-0`, `0.00`, `0e5`, ...). -/
def numLitIsZero (lit : String) : Bool :=
  let mantissa := lit.data.takeWhile (fun c => c ≠ 'e' ∧ c ≠ 'E')
  mantissa.all (fun c => c = '0' || c = '-' || c = '+' || c = '.')

/-- Python truthiness (`if x:`) of a decoded JSON value. -/
def pyTruthy : Json → Bool
  | .null => false
  | .bool b => b
  | .num lit => !numLitIsZero lit
  | .str s => s ≠ ""
  | .arr xs => !xs.isEmpty
  | .obj fs => !fs.isEmpty

/-- Python subscript `o[k]` with a string key: only dicts succeed
(`none` = `KeyError` on a dict, `TypeError` otherwise). -/
def pyGetItem : Json → String → Option Json
  | .obj fs, k => dictLookup fs k
  | _, _ => none

/-- Python iteration `for x in o`: lists yield elements, strings yield
one-character strings, dicts yield their keys; the rest raise
`TypeError`. -/
def pyIter : Json → Option (List Json)
  | .arr xs => some xs
  | .str s => some (s.data.map (fun c => .str (String.singleton c)))
  | .obj fs => some (fs.map (fun p => .str p.1))
  | _ => none

/-- Sequential evaluation of a list comprehension `[f x for x in l]`
whose body may raise: the first failure aborts the whole list. -/
def mapOpt {α β : Type} (f : α → Option β) : List α → Option (List β)
  | [] => some []
  | a :: l =>
    match f a with
    | none => none
    | some b =>
      match mapOpt f l with
      | none => none
      | some bs => some (b :: bs)

/-! ### The client core (`class ThreatKB`)

`requests.Session.request` is abstracted as a total function from the
issued request to a response; the model threads no connection state.
The constructor's host normalisation and logging are not needed by any
claim and are left out; a `ThreatKB` value holds the session fields the
methods read. -/

structure Response where
  status : Nat
  content : String

structure Request where
  method : String
  url : String
  params : Dict Json
  jsonArg : Option Json
  files : Dict String

abbrev Server := Request → Response

/-- The HTTP body the `requests` library actually sends for a call
`session.request(..., json=v)`: it serialises `v` with `json.dumps`
whatever type `v` has (so passing an already-serialised string produces
a double-encoded body). -/
def wireBody (r : Request) : Option String := r.jsonArg.map jsonDumps

structure ThreatKB where
  host : String
  token : String
  secret_key : String
  base_uri : String
  use_https : Bool
  filter_on_keys : List String

/-- The exception message `_request` raises on HTTP 401. -/
def authError : String := "Invalid authentication token and secret key."

/-- `ThreatKB._request`: writes `token` and `secret_key` into the caller's
`uri_params` dict, builds the URL, issues the request, and raises on 401.
Returns the request trace alongside the outcome. -/
def ThreatKB._request (self : ThreatKB) (srv : Server) (method uri : String)
    (uri_params : Dict Json) (body : Option Json)
    (files : Dict String) : List Request × Except String Response :=
  let ps := dictSet (dictSet uri_params "token" (.str self.token))
              "secret_key" (.str self.secret_key)
  let url := (if self.use_https then "https" else "http") ++ "://" ++
             self.host ++ self.base_uri ++ uri
  let req : Request := ⟨method, url, ps, body, files⟩
  let resp := srv req
  ([req], if resp.status = 401 then .error authError else .ok resp)

/-- `('/' + str(id_) if id_ else '')`: an id is carried as its `str()`
form when truthy; `none` models any falsy `id_` (`None`, `0`, `""`). -/
def idSuffix : Option String → String
  | none => ""
  | some i => "/" ++ i

/-- `ThreatKB.get`: GET, returning the raw response body. -/
def ThreatKB.get (self : ThreatKB) (srv : Server) (endpoint : String)
    (id? : Option String) (params : Dict Json) :
    List Request × Except String String :=
  let r := self._request srv "GET" (endpoint ++ idSuffix id?) params none []
  (r.1, r.2.map (fun resp => resp.content))

/-- `ThreatKB.update`: PUT with the JSON payload as body. -/
def ThreatKB.update (self : ThreatKB) (srv : Server) (endpoint : String)
    (id? : Option String) (json_data : Json) :
    List Request × Except String String :=
  let r := self._request srv "PUT" (endpoint ++ idSuffix id?) [] (some json_data) []
  (r.1, r.2.map (fun resp => resp.content))

/-- `ThreatKB.delete`: DELETE `endpoint/id`, true iff the status is 200. -/
def ThreatKB.delete (self : ThreatKB) (srv : Server) (endpoint id_ : String) :
    List Request × Except String Bool :=
  let r := self._request srv "DELETE" (endpoint ++ "/" ++ id_) [] none []
  (r.1, r.2.map (fun resp => resp.status == 200))

/-- `ThreatKB.create`: POST (multipart when `files` is non-empty, JSON
body otherwise); a 412 response yields `None`, anything else the body. -/
def ThreatKB.create (self : ThreatKB) (srv : Server) (endpoint : String)
    (json_data : Json) (files : Dict String) :
    List Request × Except String (Option String) :=
  let r := if files.isEmpty then self._request srv "POST" endpoint [] (some json_data) []
           else self._request srv "POST" endpoint [] none files
  (r.1, r.2.map (fun resp => if resp.status = 412 then none else some resp.content))

/-! ### `ThreatKB.filter_output` -/

/-- The projection `dict(zip(keys, [o[k] for k in keys]))` applied to one
decoded value; `none` when some `o[k]` raises. -/
def projectOne (keys : List String) (v : Json) : Option Json :=
  (mapOpt (pyGetItem v) keys).map
    (fun vals => .obj ((keys.zip vals).foldl (fun d kv => dictSet d kv.1 kv.2) []))

/-- `ThreatKB.filter_output`: parse the body as JSON and project it (a
single dict, or each element of anything iterable) onto
`filter_on_keys`; any failure returns the original input (`.inr`). -/
def ThreatKB.filter_output (self : ThreatKB) (output : String) : Json ⊕ String :=
  match jsonLoads output with
  | none => .inr output
  | some o =>
    match o with
    | .obj fs =>
      match projectOne self.filter_on_keys (.obj fs) with
      | some r => .inl r
      | none => .inr output
    | _ =>
      match pyIter o with
      | none => .inr output
      | some elems =>
        match mapOpt (projectOne self.filter_on_keys) elems with
        | some rs => .inl (.arr rs)
        | none => .inr output

/-! ### `datetime.strptime(s, "%Y-%m-%dT%H:%M:%S")`

Timestamps are mapped to an absolute scale: seconds on the proleptic
Gregorian calendar (`toordinal` is `datetime.date.toordinal`).  `%Y`
matches exactly four digits; the other fields match one or two digits
with the same net range checks CPython applies (regex plus the
`datetime` constructor): month 1-12, day within the month, hour ≤ 23,
minute/second ≤ 59, year ≥ 1. -/

def digitVal (c : Char) : Option Nat :=
  if isDigit c then some (c.toNat - 48) else none

/-- One or two digits, greedy. -/
def take2 : List Char → Option (Nat × List Char)
  | [] => none
  | c :: cs =>
    match digitVal c with
    | none => none
    | some d1 =>
      match cs with
      | c2 :: cs2 =>
        match digitVal c2 with
        | some d2 => some (d1 * 10 + d2, cs2)
        | none => some (d1, cs)
      | [] => some (d1, [])

/-- Exactly four digits. -/
def take4 : List Char → Option (Nat × List Char)
  | a :: b :: c :: d :: cs =>
    match digitVal a, digitVal b, digitVal c, digitVal d with
    | some x, some y, some z, some w => some (((x * 10 + y) * 10 + z) * 10 + w, cs)
    | _, _, _, _ => none
  | _ => none

def expectChar (c : Char) : List Char → Option (List Char)
  | c2 :: cs => if c2 = c then some cs else none
  | [] => none

def isLeap (y : Nat) : Bool := y % 4 = 0 && (y % 100 ≠ 0 || y % 400 = 0)

def daysInMonth (y m : Nat) : Nat :=
  if m = 2 then (if isLeap y then 29 else 28)
  else if m = 4 ∨ m = 6 ∨ m = 9 ∨ m = 11 then 30
  else 31

def daysBeforeMonth (y m : Nat) : Nat :=
  (List.range (m - 1)).foldl (fun a i => a + daysInMonth y (i + 1)) 0

/-- `datetime.date(y, m, d).toordinal()`. -/
def toordinal (y m d : Nat) : Nat :=
  (y - 1) * 365 + (y - 1) / 4 + (y - 1) / 400 + daysBeforeMonth y m + d - (y - 1) / 100

/-- Seconds since the epoch of the ordinal scale, or `none` for the
`ValueError` strptime raises on malformed or out-of-range input. -/
def strptimeSec (s : String) : Option Int := do
  let (y, r1) ← take4 s.data
  let r2 ← expectChar '-' r1
  let (mo, r3) ← take2 r2
  let r4 ← expectChar '-' r3
  let (d, r5) ← take2 r4
  let r6 ← expectChar 'T' r5
  let (h, r7) ← take2 r6
  let r8 ← expectChar ':' r7
  let (mi, r9) ← take2 r8
  let r10 ← expectChar ':' r9
  let (sec, r11) ← take2 r10
  if r11 = [] ∧ 1 ≤ y ∧ 1 ≤ mo ∧ mo ≤ 12 ∧ 1 ≤ d ∧ d ≤ daysInMonth y mo ∧
      h ≤ 23 ∧ mi ≤ 59 ∧ sec ≤ 59 then
    some ((toordinal y mo d : Int) * 86400 + h * 3600 + mi * 60 + sec)
  else none

example : strptimeSec "2024-01-02T03:04:05" = some 63839847845 := by rfl

example : strptimeSec "2024-13-02T03:04:05" = none := by rfl

example : strptimeSec "2023-02-29T00:00:00" = none := by rfl

/-! ### The helper layer (`class ThreatKBHelper`)

The helpers also print diagnostics, so their results carry an `Effects`
record: the request trace plus everything written to stdout. -/

structure Effects where
  reqs : List Request
  out : List String

/-- `ThreatKBHelper.get_c2ips_id`: search `/c2ips` for the exact ip and
return the first hit's `id` (Python `None` → `none` in the result). -/
def ThreatKB.get_c2ips_id (self : ThreatKB) (srv : Server) (ip : String) :
    List Request × Except String (Option Json) :=
  let params : Dict Json := [("searches", .str ("\x7b\"ip\":\"" ++ ip ++ "\"\x7d"))]
  let r := self.get srv "/c2ips" none params
  (r.1,
    match r.2 with
    | .error e => .error e
    | .ok content =>
      match jsonLoads content with
      | none => .error "ValueError: invalid JSON"
      | some results =>
        match pyGetItem results "total_count" with
        | none => .error "KeyError: total_count"
        | some tc =>
          if pyTruthy tc then
            match pyGetItem results "data" with
            | none => .error "KeyError: data"
            | some data =>
              match pyIter data with
              | none => .error "TypeError: not iterable"
              | some [] => .ok none
              | some (item :: _) =>
                match pyGetItem item "id" with
                | none => .error "KeyError: id"
                | some v => .ok (some v)
          else .ok none)

/-- `ThreatKBHelper.get_c2ips_comments`: resolve the ip, then fetch the
comments for entity type 3 and that id; on a falsy id print
`IP not found` and return `None` without a second request. -/
def ThreatKB.get_c2ips_comments (self : ThreatKB) (srv : Server) (ip : String) :
    Effects × Except String (Option Json) :=
  match self.get_c2ips_id srv ip with
  | (rs, .error e) => (⟨rs, []⟩, .error e)
  | (rs, .ok idOpt) =>
    let params : Dict Json :=
      [("entity_type", .num "3"), ("entity_id", idOpt.getD .null)]
    if (match idOpt with | some v => pyTruthy v | none => false) then
      let r2 := self.get srv "/comments" none params
      (⟨rs ++ r2.1, []⟩,
        match r2.2 with
        | .error e => .error e
        | .ok content =>
          match jsonLoads content with
          | none => .error "ValueError: invalid JSON"
          | some v => .ok (some v))
    else (⟨rs, ["IP not found"]⟩, .ok none)

/-- Microseconds per day: `datetime` comparisons are exact to the
microsecond, and `datetime.now()` carries microseconds. -/
def musPerDay : Int := 86400000000

/-- The loop body of `squelch_check`: scan the comments in order and stop
at the first one whose parsed `date_modified` is strictly more recent
than `now - days` (`now` in microseconds on the ordinal scale). -/
def squelchLoop (now days : Int) : List Json → Except String Bool
  | [] => .ok false
  | c :: rest =>
    match pyGetItem c "date_modified" with
    | none => .error "KeyError: date_modified"
    | some dm =>
      match dm with
      | .str s =>
        match strptimeSec s with
        | none => .error "ValueError: strptime"
        | some t =>
          if now - days * musPerDay < t * 1000000 then .ok true
          else squelchLoop now days rest
      | _ => .error "TypeError: strptime() argument must be str"

/-- `ThreatKBHelper.squelch_check`.  The Python body recomputes
`datetime.now()` on every iteration; the model takes one fixed `now`
(time does not advance during a call).  Iterating over the `None`
returned by a failed ip lookup raises `TypeError`. -/
def ThreatKB.squelch_check (self : ThreatKB) (srv : Server) (now : Int)
    (ip : String) (days : Int) : Effects × Except String Bool :=
  match self.get_c2ips_comments srv ip with
  | (eff, .error e) => (eff, .error e)
  | (eff, .ok comments) =>
    match comments with
    | none => (eff, .error "TypeError: NoneType object is not iterable")
    | some cj =>
      match pyIter cj with
      | none => (eff, .error "TypeError: not iterable")
      | some items => (eff, squelchLoop now days items)

/-! ### The command dispatcher entry points

`comment` and `search` receive the positional arguments
(`params[0]` is the subcommand name).  When unpacking `params[1:]`
fails, the code calls `help(...)` — which only *returns* the usage text
(its `exit` parameter is never used) — discards the result, and then
evaluates an expression over the unbound locals, raising
`UnboundLocalError` before any request is built.  Nothing is printed on
that path. -/

def ENTITY_TYPES : Dict Json :=
  [("yara_rule", .num "1"), ("c2dns", .num "2"), ("c2ip", .num "3"), ("task", .num "4")]

/-- CLI `comment <artifact> <artifact_id> <comment>`: POSTs
`json.dumps({...})` — a *string* — as the `json=` payload of `create`,
and prints the result (`None` prints as `"None"`). -/
def commentCmd (cli : ThreatKB) (srv : Server) (params : List String) :
    Effects × Except String Unit :=
  match params with
  | _ :: artifact :: artifact_id :: commentText :: [] =>
    let payload : Json := .obj [("comment", .str commentText),
                                ("entity_type", (dictLookup ENTITY_TYPES artifact).getD .null),
                                ("entity_id", .str artifact_id)]
    match cli.create srv "comments" (.str (jsonDumps payload)) [] with
    | (rs, .error e) => (⟨rs, []⟩, .error e)
    | (rs, .ok res) =>
      (⟨rs, [match res with | none => "None" | some c => c]⟩, .ok ())
  | _ => (⟨[], []⟩, .error "UnboundLocalError: comment")

/-- CLI `search <filter> <filter_text>`. -/
def searchCmd (cli : ThreatKB) (srv : Server) (params : List String) :
    Effects × Except String Unit :=
  match params with
  | _ :: filt :: filter_text :: [] =>
    match cli.get srv "search" none [(filt, .str filter_text)] with
    | (rs, .error e) => (⟨rs, []⟩, .error e)
    | (rs, .ok content) => (⟨rs, [content]⟩, .ok ())
  | _ => (⟨[], []⟩, .error "UnboundLocalError: filter_")

/-! ### Reference semantics of the params dicts

Python passes dicts by reference and evaluates a `def`'s default value
once, so `_request`'s `uri_params["token"] = ...` writes into the very
dict object the caller supplied — or into a function's single shared
default dict when the argument was omitted.  This refinement of
`_request`/`get`/`update`/`create` (lines 52-56, 86-106) makes the dict
store explicit: a heap maps references to dicts; each function's
mutable default argument lives at a fixed reference. -/

abbrev Ref := Nat

def Heap := Ref → Dict Json

def heapWrite (h : Heap) (r : Ref) (d : Dict Json) : Heap :=
  fun r2 => if r2 = r then d else h r2

/-- The shared default dict of `get`'s `params={}`. -/
def getParamsDefaultRef : Ref := 0

/-- The shared default dict of `_request`'s `uri_params={}` (used by
every call that omits `uri_params`, i.e. `update`/`delete`/`create`). -/
def requestUriParamsDefaultRef : Ref := 1

/-- Heap-level `_request`: mutate the `uri_params` dict in place (the
caller's object, or the shared default when omitted) and return the
reference that the issued request's query parameters alias. -/
def ThreatKB.requestH (self : ThreatKB) (h : Heap) (uriParamsRef : Option Ref) :
    Heap × Ref :=
  let r := uriParamsRef.getD requestUriParamsDefaultRef
  let d := dictSet (dictSet (h r) "token" (.str self.token))
             "secret_key" (.str self.secret_key)
  (heapWrite h r d, r)

/-- Heap-level `get`: always forwards a params dict to `_request` —
the caller's, or `get`'s own shared default. -/
def ThreatKB.getH (self : ThreatKB) (h : Heap) (paramsRef : Option Ref) :
    Heap × Ref :=
  self.requestH h (some (paramsRef.getD getParamsDefaultRef))

/-- Heap-level `update`: `json_data` is passed as the request *body*;
no query-parameter dict exists in its signature, so `_request` falls
back to its own shared default dict and `json_data` is never written. -/
def ThreatKB.updateH (self : ThreatKB) (h : Heap) (_jsonDataRef : Option Ref) :
    Heap × Ref :=
  self.requestH h none

/-- Heap-level `create`: like `update`, `json_data`/`files` are body
material; `_request` is called without `uri_params`. -/
def ThreatKB.createH (self : ThreatKB) (h : Heap) (_jsonDataRef : Option Ref) :
    Heap × Ref :=
  self.requestH h none

/-! ### Concrete fixtures used by witnesses and counterexamples -/

def cliEx : ThreatKB := ⟨"h/", "tok", "sec", "ThreatKB/", false, []⟩

def cliFilt : ThreatKB := ⟨"h/", "tok", "sec", "ThreatKB/", false, ["id", "name"]⟩

def srv401 : Server := fun _ => ⟨401, ""⟩

def srv412 : Server := fun _ => ⟨412, "dup"⟩

def srvBody : Server := fun _ => ⟨200, "body!"⟩

def c2ipsFound : String := "\x7b\"total_count\": 1, \"data\": [\x7b\"id\": 7\x7d]\x7d"

def c2ipsMissing : String := "\x7b\"total_count\": 0\x7d"

def commentsJson : String := "[\x7b\"date_modified\": \"2024-01-02T03:04:05\"\x7d]"

/-- A server that answers the comments query (recognised by its
`entity_type` parameter) with one comment and everything else with a
successful ip search. -/
def srvC8 : Server := fun r =>
  match dictLookup r.params "entity_type" with
  | some (.num lit) => if lit = "3" then ⟨200, commentsJson⟩ else ⟨200, c2ipsFound⟩
  | _ => ⟨200, c2ipsFound⟩

/-- A server whose ip search finds nothing. -/
def srvNF : Server := fun _ => ⟨200, c2ipsMissing⟩

/-! ### C1 -/

/-- `rs` is a single request whose query parameters carry the session
credentials under `token` and `secret_key`. -/
def credentialed (tok sec : String) (rs : List Request) : Prop :=
  rs.map (fun r => dictLookup r.params "token") = [some (.str tok)] ∧
  rs.map (fun r => dictLookup r.params "secret_key") = [some (.str sec)]

theorem credentialed_request (self : ThreatKB) (srv : Server) (m u : String)
    (ps : Dict Json) (body : Option Json) (files : Dict String) :
    credentialed self.token self.secret_key (self._request srv m u ps body files).1 := by
  unfold credentialed ThreatKB._request
  refine ⟨?_, ?_⟩
  · simp [dictLookup_dictSet_ne _ _ _ _ (by decide : ("token" : String) ≠ "secret_key"),
          dictLookup_dictSet_self]
  · simp [dictLookup_dictSet_self]

/-- C1: every request issued by `_request` — and hence by `get`, `update`,
`delete` and `create` — carries the session's token under the query key
`token` and its secret under `secret_key`, the session values
overwriting any caller-supplied entries for those two keys. -/
theorem request_injects_credentials (self : ThreatKB) (srv : Server)
    (m u e idd : String) (id? : Option String) (ps : Dict Json)
    (body : Option Json) (jd : Json) (files : Dict String) :
    credentialed self.token self.secret_key (self._request srv m u ps body files).1 ∧
    credentialed self.token self.secret_key (self.get srv e id? ps).1 ∧
    credentialed self.token self.secret_key (self.update srv e id? jd).1 ∧
    credentialed self.token self.secret_key (self.delete srv e idd).1 ∧
    credentialed self.token self.secret_key (self.create srv e jd files).1 := by
  refine ⟨credentialed_request self srv m u ps body files, ?_, ?_, ?_, ?_⟩
  · exact credentialed_request self srv "GET" (e ++ idSuffix id?) ps none []
  · exact credentialed_request self srv "PUT" (e ++ idSuffix id?) [] (some jd) []
  · exact credentialed_request self srv "DELETE" (e ++ "/" ++ idd) [] none []
  · unfold ThreatKB.create
    cases hf : files.isEmpty <;> simp only [hf, if_true, if_false, Bool.false_eq_true]
    · exact credentialed_request self srv "POST" e [] none files
    · exact credentialed_request self srv "POST" e [] (some jd) []

/-! ### C6 and C7 -/

/-- C6: for every endpoint and payload, `create` returns `None` when the
server answers 412, and the raw response body for every other non-401
status. -/
theorem create_spec (self : ThreatKB) (srv : Server) (endpoint : String)
    (jd : Json) (files : Dict String) :
    ∀ req ∈ (self.create srv endpoint jd files).1,
      ((srv req).status = 412 → (self.create srv endpoint jd files).2 = .ok none) ∧
      ((srv req).status ≠ 412 → (srv req).status ≠ 401 →
        (self.create srv endpoint jd files).2 = .ok (some (srv req).content)) := by
  intro req hreq
  cases hf : files.isEmpty
  all_goals
    simp only [ThreatKB.create, ThreatKB._request, hf, if_true, if_false,
      Bool.false_eq_true, List.mem_singleton] at hreq
  all_goals
    constructor
  · intro h412
    subst hreq
    simp [ThreatKB.create, ThreatKB._request, hf, Except.map, h412]
  · intro h412 h401
    subst hreq
    simp [ThreatKB.create, ThreatKB._request, hf, Except.map, h412, h401]
  · intro h412
    subst hreq
    simp [ThreatKB.create, ThreatKB._request, hf, Except.map, h412]
  · intro h412 h401
    subst hreq
    simp [ThreatKB.create, ThreatKB._request, hf, Except.map, h412, h401]

/-- C7: `get`, `update`, `delete` and `create` raise the authentication
error exactly when the server responds 401 — the call errors out instead
of returning a result. -/
theorem ops_raise_iff_401 (self : ThreatKB) (srv : Server) (e idd : String)
    (id? : Option String) (ps : Dict Json) (jd : Json) (files : Dict String) :
    (∀ req ∈ (self.get srv e id? ps).1,
       ((self.get srv e id? ps).2 = .error authError ↔ (srv req).status = 401))
  ∧ (∀ req ∈ (self.update srv e id? jd).1,
       ((self.update srv e id? jd).2 = .error authError ↔ (srv req).status = 401))
  ∧ (∀ req ∈ (self.delete srv e idd).1,
       ((self.delete srv e idd).2 = .error authError ↔ (srv req).status = 401))
  ∧ (∀ req ∈ (self.create srv e jd files).1,
       ((self.create srv e jd files).2 = .error authError ↔ (srv req).status = 401)) := by
  refine ⟨?_, ?_, ?_, ?_⟩
  · intro req hreq
    simp only [ThreatKB.get, ThreatKB._request, List.mem_singleton] at hreq
    by_cases h : (srv req).status = 401
    · subst hreq
      simp [ThreatKB.get, ThreatKB._request, Except.map, h]
    · subst hreq
      simp [ThreatKB.get, ThreatKB._request, Except.map, h]
  · intro req hreq
    simp only [ThreatKB.update, ThreatKB._request, List.mem_singleton] at hreq
    by_cases h : (srv req).status = 401
    · subst hreq
      simp [ThreatKB.update, ThreatKB._request, Except.map, h]
    · subst hreq
      simp [ThreatKB.update, ThreatKB._request, Except.map, h]
  · intro req hreq
    simp only [ThreatKB.delete, ThreatKB._request, List.mem_singleton] at hreq
    by_cases h : (srv req).status = 401
    · subst hreq
      simp [ThreatKB.delete, ThreatKB._request, Except.map, h]
    · subst hreq
      simp [ThreatKB.delete, ThreatKB._request, Except.map, h]
  · intro req hreq
    cases hf : files.isEmpty
    all_goals
      simp only [ThreatKB.create, ThreatKB._request, hf, if_true, if_false,
        Bool.false_eq_true, List.mem_singleton] at hreq
    all_goals
      by_cases h : (srv req).status = 401
    · subst hreq
      simp [ThreatKB.create, ThreatKB._request, hf, Except.map, h]
    · subst hreq
      simp [ThreatKB.create, ThreatKB._request, hf, Except.map, h]
    · subst hreq
      simp [ThreatKB.create, ThreatKB._request, hf, Except.map, h]
    · subst hreq
      simp [ThreatKB.create, ThreatKB._request, hf, Except.map, h]

/-- Witness for C6 at concrete servers: a 412 yields `None`, a 200 yields
the body. -/
theorem create_spec_witness :
    (cliEx.create srv412 "c2dns" (.obj []) []).2 = .ok none ∧
    (cliEx.create srvBody "c2dns" (.obj []) []).2 = .ok (some "body!") := by
  constructor
  · exact ((create_spec cliEx srv412 "c2dns" (.obj []) []
      ⟨"POST", "http://h/ThreatKB/c2dns",
        [("token", .str "tok"), ("secret_key", .str "sec")], some (.obj []), []⟩
      (List.mem_singleton.mpr rfl)).1) rfl
  · exact ((create_spec cliEx srvBody "c2dns" (.obj []) []
      ⟨"POST", "http://h/ThreatKB/c2dns",
        [("token", .str "tok"), ("secret_key", .str "sec")], some (.obj []), []⟩
      (List.mem_singleton.mpr rfl)).2) (by decide) (by decide)

/-- Witness for C7: a 401 server makes `get` raise the authentication
error; a 200 server does not. -/
theorem ops_raise_iff_401_witness :
    (cliEx.get srv401 "x" none []).2 = .error authError ∧
    (cliEx.update srvBody "x" none (.obj [])).2 ≠ .error authError := by
  constructor
  · exact ((ops_raise_iff_401 cliEx srv401 "x" "i" none [] (.obj []) []).1
      ⟨"GET", "http://h/ThreatKB/x",
        [("token", .str "tok"), ("secret_key", .str "sec")], none, []⟩
      (List.mem_singleton.mpr rfl)).mpr rfl
  · intro hcontra
    have h := ((ops_raise_iff_401 cliEx srvBody "x" "i" none [] (.obj []) []).2.1
      ⟨"PUT", "http://h/ThreatKB/x",
        [("token", .str "tok"), ("secret_key", .str "sec")], some (.obj []), []⟩
      (List.mem_singleton.mpr rfl)).mp hcontra
    exact absurd h (by decide)

/-! ### C2 and C3 -/

/-- C2 (amended): running the `comment` command with
`["comment", "yara_rule", "42", "test comment"]` issues exactly one POST
to the comments endpoint, but the value handed to the HTTP layer's
`json=` parameter is the already-serialised *string*
`json.dumps({"comment": ..., "entity_type": 1, "entity_id": "42"})`,
so the wire body is that object double-encoded as a JSON string rather
than the object itself. -/
theorem comment_posts_double_encoded_body (cli : ThreatKB) (srv : Server) :
    (commentCmd cli srv ["comment", "yara_rule", "42", "test comment"]).1.reqs.map
        (fun r => (r.method, r.url, r.jsonArg)) =
      [("POST",
        (if cli.use_https then "https" else "http") ++ "://" ++ cli.host ++
          cli.base_uri ++ "comments",
        some (.str (jsonDumps (.obj [("comment", .str "test comment"),
          ("entity_type", .num "1"), ("entity_id", .str "42")]))))] := by
  unfold commentCmd ThreatKB.create ThreatKB._request
  by_cases h : (srv ⟨"POST",
      (if cli.use_https then "https" else "http") ++ "://" ++ cli.host ++
        cli.base_uri ++ "comments",
      dictSet (dictSet [] "token" (.str cli.token)) "secret_key" (.str cli.secret_key),
      some (.str (jsonDumps (.obj [("comment", .str "test comment"),
        ("entity_type", .num "1"), ("entity_id", .str "42")]))), []⟩).status = 401 <;>
    simp [Except.map, h, ENTITY_TYPES, dictLookup]

/-- Counterexample for C2 as stated: at the claimed input, what the HTTP
layer sends (`wireBody`) does not parse back to the claimed JSON object —
it parses to a JSON *string* (the object's serialisation, quoted). -/
theorem comment_body_not_object :
    (commentCmd cliEx srvBody ["comment", "yara_rule", "42", "test comment"]).1.reqs.map
        (fun r => (wireBody r).bind jsonLoads) ≠
      [some (.obj [("comment", .str "test comment"), ("entity_type", .num "1"),
        ("entity_id", .str "42")])] := by
  have e : (commentCmd cliEx srvBody
        ["comment", "yara_rule", "42", "test comment"]).1.reqs.map
        (fun r => (wireBody r).bind jsonLoads) =
      [some (.str "\x7b\"comment\": \"test comment\", \"entity_type\": 1, \"entity_id\": \"42\"\x7d")] := by
    rfl
  rw [e]
  simp

/-- C3: with a required positional argument missing, the `comment` (and
`search`) handlers issue no request — but also print nothing: `help`
merely returns the usage text, the result is discarded, and the handler
dies with `UnboundLocalError`.  (The claim's intended behavior — print
the usage block — never happens; this records the buggy actual one.) -/
theorem comment_missing_args_crashes_silently (cli : ThreatKB) (srv : Server) :
    commentCmd cli srv ["comment", "yara_rule", "42"] =
      (⟨[], []⟩, .error "UnboundLocalError: comment") ∧
    searchCmd cli srv ["search", "tag"] =
      (⟨[], []⟩, .error "UnboundLocalError: filter_") :=
  ⟨rfl, rfl⟩

/-! ### C4 -/

theorem mapOpt_congr {α β : Type} (f g : α → Option β) (l : List α)
    (h : ∀ a ∈ l, f a = g a) : mapOpt f l = mapOpt g l := by
  induction l with
  | nil => rfl
  | cons a l ih =>
    simp only [mapOpt]
    rw [h a (List.mem_cons_self a l), ih (fun b hb => h b (List.mem_cons_of_mem a hb))]

theorem mapOpt_length {α β : Type} (f : α → Option β) (l : List α) (l' : List β)
    (h : mapOpt f l = some l') : l'.length = l.length := by
  induction l generalizing l' with
  | nil =>
    simp only [mapOpt] at h
    injection h with h
    subst h
    rfl
  | cons a l ih =>
    simp only [mapOpt] at h
    cases hf : f a with
    | none => rw [hf] at h; exact absurd h (by simp)
    | some b =>
      rw [hf] at h
      cases hm : mapOpt f l with
      | none => rw [hm] at h; exact absurd h (by simp)
      | some bs =>
        rw [hm] at h
        injection h with h
        subst h
        simp [ih bs hm]

theorem mapOpt_none_of_mem {α β : Type} (f : α → Option β) (l : List α) (a : α)
    (ha : a ∈ l) (hf : f a = none) : mapOpt f l = none := by
  induction l with
  | nil => cases ha
  | cons b l ih =>
    rcases List.mem_cons.mp ha with h | h
    · subst h
      simp [mapOpt, hf]
    · simp only [mapOpt]
      cases hb : f b with
      | none => rfl
      | some c => rw [ih h]

theorem dictLookup_append {α : Type} (d e : Dict α) (k : String) :
    dictLookup (d ++ e) k =
      match dictLookup d k with
      | some v => some v
      | none => dictLookup e k := by
  induction d with
  | nil => simp [dictLookup]
  | cons p d ih =>
    rcases p with ⟨k2, v2⟩
    by_cases h : k2 = k
    · simp [dictLookup, h]
    · simp [dictLookup, h, ih]

theorem foldl_dictSet_eq_append (ps : Dict Json) (d : Dict Json)
    (hnd : (ps.map Prod.fst).Nodup)
    (hdisj : ∀ k ∈ ps.map Prod.fst, dictLookup d k = none) :
    ps.foldl (fun acc kv => dictSet acc kv.1 kv.2) d = d ++ ps := by
  induction ps generalizing d with
  | nil => simp
  | cons kv ps ih =>
    rcases kv with ⟨k, v⟩
    simp only [List.foldl_cons]
    have hdk : dictLookup d k = none := hdisj k (by simp)
    rw [dictSet_fresh d k v hdk]
    simp only [List.map_cons, List.nodup_cons] at hnd
    have hdisj2 : ∀ k2 ∈ ps.map Prod.fst, dictLookup (d ++ [(k, v)]) k2 = none := by
      intro k2 hk2
      rw [dictLookup_append]
      have hne : k ≠ k2 := fun he => hnd.1 (he ▸ hk2)
      have : dictLookup d k2 = none := hdisj k2 (by simp [hk2])
      rw [this]
      simp [dictLookup, hne]
    rw [ih (d ++ [(k, v)]) hnd.2 hdisj2]
    simp

theorem projectOne_obj (keys : List String) (fs : Dict Json) (vals : List Json)
    (hnd : keys.Nodup) (h : mapOpt (dictLookup fs) keys = some vals) :
    projectOne keys (.obj fs) = some (.obj (keys.zip vals)) := by
  unfold projectOne
  rw [mapOpt_congr (pyGetItem (Json.obj fs)) (dictLookup fs) keys (fun a _ => rfl), h]
  have hlen : vals.length = keys.length := mapOpt_length _ _ _ h
  have hfst : (keys.zip vals).map Prod.fst = keys :=
    List.map_fst_zip keys vals (le_of_eq hlen.symm)
  have : (keys.zip vals).foldl (fun acc kv => dictSet acc kv.1 kv.2) [] = keys.zip vals := by
    rw [foldl_dictSet_eq_append (keys.zip vals) [] (by rw [hfst]; exact hnd)
      (fun k2 _ => rfl)]
    simp
  simp [this]

/-- C4: `filter_output` parses its input as JSON; a single mapping is
reduced to exactly the requested keys, in requested-key-list order, with
that object's values; a sequence is given the same projection
elementwise, preserving order; and any parsing or projection failure —
a requested key missing from an object included — returns the original
input unchanged instead of raising. -/
theorem filter_output_spec (self : ThreatKB) (s : String) :
    (∀ fs vals, jsonLoads s = some (.obj fs) →
       mapOpt (dictLookup fs) self.filter_on_keys = some vals →
       self.filter_on_keys.Nodup →
       self.filter_output s = .inl (.obj (self.filter_on_keys.zip vals)))
  ∧ (∀ fs k, jsonLoads s = some (.obj fs) → k ∈ self.filter_on_keys →
       dictLookup fs k = none → self.filter_output s = .inr s)
  ∧ (∀ elems rs, jsonLoads s = some (.arr elems) →
       mapOpt (projectOne self.filter_on_keys) elems = some rs →
       self.filter_output s = .inl (.arr rs))
  ∧ (∀ elems e, jsonLoads s = some (.arr elems) → e ∈ elems →
       projectOne self.filter_on_keys e = none →
       self.filter_output s = .inr s)
  ∧ (jsonLoads s = none → self.filter_output s = .inr s) := by
  refine ⟨?_, ?_, ?_, ?_, ?_⟩
  · intro fs vals hparse hmap hnd
    unfold ThreatKB.filter_output
    rw [hparse]
    dsimp only
    rw [projectOne_obj self.filter_on_keys fs vals hnd hmap]
  · intro fs k hparse hk hnone
    unfold ThreatKB.filter_output
    rw [hparse]
    dsimp only
    have hpg : pyGetItem (Json.obj fs) k = none := hnone
    have hpo : projectOne self.filter_on_keys (.obj fs) = none := by
      unfold projectOne
      rw [mapOpt_none_of_mem (pyGetItem (Json.obj fs)) self.filter_on_keys k hk hpg]
      rfl
    rw [hpo]
  · intro elems rs hparse hmap
    unfold ThreatKB.filter_output
    rw [hparse]
    dsimp only [pyIter]
    rw [hmap]
  · intro elems e hparse he hnone
    unfold ThreatKB.filter_output
    rw [hparse]
    dsimp only [pyIter]
    rw [mapOpt_none_of_mem (projectOne self.filter_on_keys) elems e he hnone]
  · intro hparse
    unfold ThreatKB.filter_output
    rw [hparse]

/-- Witness for C4: projection of an object and of a list, and the three
fallback paths (missing key in an object, missing key in a list element,
unparsable input). -/
theorem filter_output_spec_witness :
    cliFilt.filter_output "\x7b\"id\": 1, \"name\": \"x\", \"extra\": \"y\"\x7d" =
      .inl (.obj [("id", .num "1"), ("name", .str "x")]) ∧
    cliFilt.filter_output "\x7b\"id\": 1\x7d" = .inr "\x7b\"id\": 1\x7d" ∧
    cliFilt.filter_output
        "[\x7b\"id\": 1, \"name\": \"x\"\x7d, \x7b\"id\": 2, \"name\": \"y\"\x7d]" =
      .inl (.arr [.obj [("id", .num "1"), ("name", .str "x")],
                  .obj [("id", .num "2"), ("name", .str "y")]]) ∧
    cliFilt.filter_output "[\x7b\"id\": 1\x7d]" = .inr "[\x7b\"id\": 1\x7d]" ∧
    cliFilt.filter_output "not json" = .inr "not json" := by
  refine ⟨?_, ?_, ?_, ?_, ?_⟩
  · exact (filter_output_spec cliFilt _).1 _ [.num "1", .str "x"] rfl rfl (by decide)
  · exact (filter_output_spec cliFilt _).2.1 _ "name" rfl (by decide) rfl
  · exact (filter_output_spec cliFilt _).2.2.1 _ _ rfl rfl
  · exact (filter_output_spec cliFilt _).2.2.2.1 _ (Json.obj [("id", Json.num "1")])
      rfl (List.mem_cons_self _ _) rfl
  · exact (filter_output_spec cliFilt _).2.2.2.2 rfl

/-! ### C8 -/

theorem get_c2ips_id_trace (self : ThreatKB) (srv : Server) (ip : String) :
    (self.get_c2ips_id srv ip).1.length = 1 := rfl

/-- C8: when the ip lookup resolves to no entity, `get_c2ips_comments`
prints `IP not found` and returns `None`, issuing no request beyond the
lookup's single one; when the lookup yields a (truthy) id, it issues one
further GET to `/comments` carrying `entity_type = 3` and that id, and
returns the parsed response body. -/
theorem get_c2ips_comments_spec (self : ThreatKB) (srv : Server) (ip : String) :
    ((self.get_c2ips_id srv ip).2 = .ok none →
       (self.get_c2ips_comments srv ip).1.out = ["IP not found"] ∧
       (self.get_c2ips_comments srv ip).2 = .ok none ∧
       (self.get_c2ips_comments srv ip).1.reqs = (self.get_c2ips_id srv ip).1 ∧
       (self.get_c2ips_id srv ip).1.length = 1)
  ∧ (∀ v, (self.get_c2ips_id srv ip).2 = .ok (some v) → pyTruthy v = true →
       ∃ req,
         (self.get_c2ips_comments srv ip).1.reqs =
           (self.get_c2ips_id srv ip).1 ++ [req] ∧
         req.method = "GET" ∧
         req.url = (if self.use_https then "https" else "http") ++ "://" ++
           self.host ++ self.base_uri ++ "/comments" ∧
         dictLookup req.params "entity_type" = some (.num "3") ∧
         dictLookup req.params "entity_id" = some v ∧
         ∀ cj, (srv req).status ≠ 401 → jsonLoads (srv req).content = some cj →
           (self.get_c2ips_comments srv ip).2 = .ok (some cj)) := by
  constructor
  · intro h2
    have hlen := get_c2ips_id_trace self srv ip
    rcases hpair : self.get_c2ips_id srv ip with ⟨rs, res⟩
    rw [hpair] at h2 hlen
    replace h2 : res = Except.ok none := h2
    replace hlen : rs.length = 1 := hlen
    subst h2
    unfold ThreatKB.get_c2ips_comments
    rw [hpair]
    dsimp only
    exact ⟨rfl, rfl, rfl, hlen⟩
  · intro v h2 htruthy
    rcases hpair : self.get_c2ips_id srv ip with ⟨rs, res⟩
    rw [hpair] at h2
    replace h2 : res = Except.ok (some v) := h2
    subst h2
    unfold ThreatKB.get_c2ips_comments ThreatKB.get ThreatKB._request
    rw [hpair]
    dsimp only
    rw [if_pos htruthy]
    refine ⟨_, rfl, rfl, ?_, ?_, ?_, ?_⟩
    · rfl
    · rfl
    · rfl
    · intro cj hst hparse
      dsimp only
      rw [if_neg hst]
      dsimp only [Except.map]
      rw [hparse]

/-- Witness for C8: a failed lookup prints the diagnostic and stops after
one request; a successful lookup returns the parsed comment list. -/
theorem get_c2ips_comments_spec_witness :
    (cliEx.get_c2ips_comments srvNF "9.9.9.9").1.out = ["IP not found"] ∧
    (cliEx.get_c2ips_comments srvNF "9.9.9.9").2 = .ok none ∧
    (cliEx.get_c2ips_comments srvNF "9.9.9.9").1.reqs.length = 1 ∧
    (cliEx.get_c2ips_comments srvC8 "1.2.3.4").2 =
      .ok (some (.arr [.obj [("date_modified", .str "2024-01-02T03:04:05")]])) := by
  have h1 := (get_c2ips_comments_spec cliEx srvNF "9.9.9.9").1 rfl
  refine ⟨h1.1, h1.2.1, ?_, ?_⟩
  · rw [h1.2.2.1]
    exact h1.2.2.2
  · obtain ⟨req, hreqs, hm, hu, het, heid, hfinal⟩ :=
      (get_c2ips_comments_spec cliEx srvC8 "1.2.3.4").2 (.num "7") rfl rfl
    have hsrv : srvC8 req = ⟨200, commentsJson⟩ := by
      unfold srvC8
      rw [het]
      rfl
    exact hfinal _ (by rw [hsrv]; decide) (by rw [hsrv]; rfl)

/-! ### C5 and C10 -/

/-- `comment["date_modified"]` parsed with the strptime format, on the
same seconds scale as `strptimeSec`. -/
def dateModifiedSec (c : Json) : Option Int :=
  match pyGetItem c "date_modified" with
  | some (.str s) => strptimeSec s
  | _ => none

theorem squelchLoop_spec (now days : Int) (cs : List Json)
    (h : ∀ c ∈ cs, (dateModifiedSec c).isSome = true) :
    (squelchLoop now days cs = .ok true ↔
      ∃ c ∈ cs, ∃ t, dateModifiedSec c = some t ∧
        now - days * musPerDay < t * 1000000) := by
  induction cs with
  | nil => simp [squelchLoop]
  | cons c rest ih =>
    have hc := h c (List.mem_cons_self c rest)
    have hrest : ∀ x ∈ rest, (dateModifiedSec x).isSome = true :=
      fun x hx => h x (List.mem_cons_of_mem c hx)
    unfold dateModifiedSec at hc
    cases hgi : pyGetItem c "date_modified" with
    | none => simp [hgi] at hc
    | some dm =>
      cases dm with
      | str s =>
        cases hst : strptimeSec s with
        | none => simp [hgi, hst] at hc
        | some t =>
          have hdm : dateModifiedSec c = some t := by
            unfold dateModifiedSec
            rw [hgi]
            dsimp only
            rw [hst]
          by_cases hcmp : now - days * musPerDay < t * 1000000
          · constructor
            · intro _
              exact ⟨c, List.mem_cons_self c rest, t, hdm, hcmp⟩
            · intro _
              unfold squelchLoop
              rw [hgi]
              dsimp only
              rw [hst]
              dsimp only
              rw [if_pos hcmp]
          · have hred : squelchLoop now days (c :: rest) = squelchLoop now days rest := by
              simp only [squelchLoop, hgi, hst]
              rw [if_neg hcmp]
            rw [hred, ih hrest]
            constructor
            · rintro ⟨x, hx, t2, hdm2, hcmp2⟩
              exact ⟨x, List.mem_cons_of_mem c hx, t2, hdm2, hcmp2⟩
            · rintro ⟨x, hx, t2, hdm2, hcmp2⟩
              rcases List.mem_cons.mp hx with he | he
              · subst he
                rw [hdm] at hdm2
                injection hdm2 with h2
                subst h2
                exact absurd hcmp2 hcmp
              · exact ⟨x, he, t2, hdm2, hcmp2⟩
      | null => simp [hgi] at hc
      | bool b => simp [hgi] at hc
      | num lit => simp [hgi] at hc
      | arr xs => simp [hgi] at hc
      | obj fs => simp [hgi] at hc

/-- C5: provided every fetched comment's `date_modified` parses,
`squelch_check` returns true iff some comment's timestamp is strictly
more recent than `now` minus `days` days, and false on an empty comment
list. -/
theorem squelch_check_spec (self : ThreatKB) (srv : Server) (now days : Int)
    (ip : String) (cs : List Json)
    (hc : (self.get_c2ips_comments srv ip).2 = .ok (some (.arr cs)))
    (hp : ∀ c ∈ cs, (dateModifiedSec c).isSome = true) :
    ((self.squelch_check srv now ip days).2 = .ok true ↔
       ∃ c ∈ cs, ∃ t, dateModifiedSec c = some t ∧
         now - days * musPerDay < t * 1000000)
  ∧ (cs = [] → (self.squelch_check srv now ip days).2 = .ok false) := by
  rcases hpair : self.get_c2ips_comments srv ip with ⟨eff, res⟩
  rw [hpair] at hc
  replace hc : res = Except.ok (some (.arr cs)) := hc
  subst hc
  unfold ThreatKB.squelch_check
  rw [hpair]
  dsimp only [pyIter]
  constructor
  · exact squelchLoop_spec now days cs hp
  · intro hnil
    subst hnil
    rfl

/-- The fixed `datetime.now()` of the witness scenario: one hour after
the fixture comment's `date_modified`, in microseconds. -/
def nowEx : Int := 63839851445000000

/-- Witness for C5: with one comment dated an hour before `now`, a
seven-day squelch window flags it. -/
theorem squelch_check_spec_witness :
    (cliEx.squelch_check srvC8 nowEx "1.2.3.4" 7).2 = .ok true := by
  have h := squelch_check_spec cliEx srvC8 nowEx 7 "1.2.3.4"
    [.obj [("date_modified", .str "2024-01-02T03:04:05")]] rfl (by decide)
  exact h.1.mpr ⟨_, List.mem_cons_self _ _, 63839847845, rfl, by decide⟩

/-- C10: when the ip lookup finds nothing — `get_c2ips_comments` returns
`None` — `squelch_check` does not return false: it raises a `TypeError`
iterating over `None`. -/
theorem squelch_check_errors_on_missing_ip (self : ThreatKB) (srv : Server)
    (now days : Int) (ip : String)
    (h : (self.get_c2ips_comments srv ip).2 = .ok none) :
    (self.squelch_check srv now ip days).2 =
      .error "TypeError: NoneType object is not iterable" ∧
    ∀ b, (self.squelch_check srv now ip days).2 ≠ .ok b := by
  rcases hpair : self.get_c2ips_comments srv ip with ⟨eff, res⟩
  rw [hpair] at h
  replace h : res = Except.ok none := h
  subst h
  unfold ThreatKB.squelch_check
  rw [hpair]
  exact ⟨rfl, fun b hb => Except.noConfusion hb⟩

/-- Witness for C10: the not-found server makes `squelch_check` raise. -/
theorem squelch_check_errors_on_missing_ip_witness :
    (cliEx.squelch_check srvNF 0 "9.9.9.9" 7).2 =
      .error "TypeError: NoneType object is not iterable" :=
  (squelch_check_errors_on_missing_ip cliEx srvNF 0 7 "9.9.9.9" rfl).1

/-! ### C9 -/

/-- C9 (amended): `get` (via `_request`) writes the session credentials
into the very params dict the caller supplied — same reference, other
entries preserved — and an omitted params argument uses `get`'s single
shared default dict, whose mutation persists across calls.  `update` and
`create` take no query-parameter dict: their `json_data` argument is
request-body material and is never written (only `_request`'s own shared
default dict is). -/
theorem params_dict_mutation_spec (self : ThreatKB) (h : Heap) :
    (∀ r, dictLookup ((self.getH h (some r)).1 r) "token" =
            some (.str self.token) ∧
          dictLookup ((self.getH h (some r)).1 r) "secret_key" =
            some (.str self.secret_key) ∧
          (self.getH h (some r)).2 = r)
  ∧ (∀ r k, k ≠ "token" → k ≠ "secret_key" →
       dictLookup ((self.getH h (some r)).1 r) k = dictLookup (h r) k)
  ∧ ((self.getH h none).2 = getParamsDefaultRef ∧
     dictLookup ((self.getH h none).1 getParamsDefaultRef) "token" =
       some (.str self.token))
  ∧ (∀ jr, jr ≠ requestUriParamsDefaultRef →
       (self.updateH h (some jr)).1 jr = h jr ∧
       (self.createH h (some jr)).1 jr = h jr) := by
  refine ⟨?_, ?_, ?_, ?_⟩
  · intro r
    refine ⟨?_, ?_, rfl⟩
    · show dictLookup (if r = r then _ else h r) "token" = _
      rw [if_pos rfl]
      rw [dictLookup_dictSet_ne _ _ _ _ (by decide : ("token" : String) ≠ "secret_key")]
      exact dictLookup_dictSet_self _ _ _
    · show dictLookup (if r = r then _ else h r) "secret_key" = _
      rw [if_pos rfl]
      exact dictLookup_dictSet_self _ _ _
  · intro r k hk1 hk2
    show dictLookup (if r = r then _ else h r) k = _
    rw [if_pos rfl]
    rw [dictLookup_dictSet_ne _ _ _ _ hk2, dictLookup_dictSet_ne _ _ _ _ hk1]
    rfl
  · refine ⟨rfl, ?_⟩
    have hread : (self.getH h none).1 getParamsDefaultRef =
        dictSet (dictSet (h getParamsDefaultRef) "token" (.str self.token))
          "secret_key" (.str self.secret_key) := by
      simp [ThreatKB.getH, ThreatKB.requestH, heapWrite]
    rw [hread]
    rw [dictLookup_dictSet_ne _ _ _ _ (by decide : ("token" : String) ≠ "secret_key")]
    exact dictLookup_dictSet_self _ _ _
  · intro jr hjr
    constructor
    · show (if jr = requestUriParamsDefaultRef then _ else h jr) = h jr
      rw [if_neg hjr]
    · show (if jr = requestUriParamsDefaultRef then _ else h jr) = h jr
      rw [if_neg hjr]

/-- A heap holding a caller-owned dict `{"a": "b"}` at reference 5. -/
def heapEx : Heap := heapWrite (fun _ => []) 5 [("a", .str "b")]

/-- Counterexample for C9 as stated: after `update` is called with an
explicitly supplied dict, that dict does *not* contain the session token
— `update` has no query-parameter argument and never writes `json_data`. -/
theorem update_json_data_not_injected :
    dictLookup ((cliEx.updateH heapEx (some 5)).1 5) "token" ≠
      some (.str cliEx.token) := by
  have e : dictLookup ((cliEx.updateH heapEx (some 5)).1 5) "token" = none := rfl
  rw [e]
  simp

/-- Witness for C9 (amended): the caller's dict at reference 5 gains the
credentials under `get` and keeps its other entry, while `update` and
`create` leave it untouched. -/
theorem params_dict_mutation_spec_witness :
    dictLookup ((cliEx.getH heapEx (some 5)).1 5) "token" = some (.str "tok") ∧
    dictLookup ((cliEx.getH heapEx (some 5)).1 5) "a" = some (.str "b") ∧
    (cliEx.updateH heapEx (some 5)).1 5 = [("a", .str "b")] ∧
    (cliEx.createH heapEx (some 5)).1 5 = [("a", .str "b")] := by
  refine ⟨?_, ?_, ?_, ?_⟩
  · exact ((params_dict_mutation_spec cliEx heapEx).1 5).1
  · exact ((params_dict_mutation_spec cliEx heapEx).2.1 5 "a" (by decide)
      (by decide)).trans rfl
  · exact (((params_dict_mutation_spec cliEx heapEx).2.2.2 5 (by decide)).1).trans rfl
  · exact (((params_dict_mutation_spec cliEx heapEx).2.2.2 5 (by decide)).2).trans rfl
